import Mathlib

/-!
Verification development for the editor-extension UI glue code:
the chat follow-up interaction handler (`FollowUpInteractionHandler`)
and the "create remote workspace" wizard webview (`CawsCreateWebview`,
`showCreateWorkspace`).

Each handler method is embedded as a pure function from its inputs and
the responses of its external collaborators (chat UI, tab registry,
remote-service client) to the list of collaborator calls it performs,
in order.  Claims are then stated and proved over these traces.
-/

namespace AwsToolkit

/-! ## Follow-up interaction handler (src/amazonq/webview/ui/followUps/handler.ts) -/

/-- The chat item types used by the handler (`ChatItemType` from the chat
UI library): user prompt, streaming answer placeholder, plain answer. -/
inductive ChatItemType where
  | prompt
  | answerStream
  | answer
  deriving DecidableEq, Repr

/-- Notification severities used by the handler (`NotificationType`). -/
inductive NotificationType where
  | warning
  | info
  deriving DecidableEq, Repr

/-- The fields of `ChatItemFollowUp` read by the handler: an optional
`type` tag (may be an auth kind such as "full-auth"/"re-auth") and an
optional `prompt` text. -/
structure ChatItemFollowUp where
  type : Option String := none
  prompt : Option String := none
  deriving DecidableEq, Repr

/-- The tab record the handler registers via `tabsStorage.addTab`. -/
structure TabRecord where
  id : String
  status : String
  type : String
  isSelected : Bool
  openInteractionType : String
  deriving DecidableEq, Repr

/-- One collaborator call made by the handler, in the order performed:
chat-UI calls (`updateStore`, `addChatItem`, `notify`), tab-registry
calls (`addTab`, `updateTabTypeFromUnknown`, `updateTabStatus`,
`resetTabTimer`), and connector calls. `requestNewTab` stands for the
`mynahUI.updateStore('', tabData)` tab-creation attempt. -/
inductive UiEffect where
  | updateStore (tabID : String) (loadingChat promptInputDisabledState : Bool)
  | addChatItem (tabID : String) (itemType : ChatItemType) (body : String)
  | updateTabStatus (tabID status : String)
  | resetTabTimer (tabID : String)
  | onAuthFollowUpClicked (tabID authType : String)
  | connectorOnFollowUpClicked (tabID messageId : String) (followUp : ChatItemFollowUp)
  | requestNewTab
  | addTab (tab : TabRecord)
  | updateTabTypeFromUnknown (tabID newType : String)
  | onUpdateTabType (tabID : String)
  | onKnownTabOpen (tabID : String)
  | notify (content : String) (ntype : NotificationType)
  deriving DecidableEq, Repr

/-- The auth-kind test from `onFollowUpClicked`:
`followUp.type !== undefined && ["full-auth","re-auth"].includes(followUp.type)`. -/
def isAuthType : Option String → Bool
  | none => false
  | some t => t = "full-auth" || t = "re-auth"

/-- Embedding of `FollowUpInteractionHandler.onFollowUpClicked`, returning
the ordered list of collaborator calls it performs. -/
def onFollowUpClicked (tabID messageId : String) (followUp : ChatItemFollowUp) :
    List UiEffect :=
  if isAuthType followUp.type then
    [.onAuthFollowUpClicked tabID (followUp.type.getD "")]
  else
    (match followUp.prompt with
      | some p =>
        [.updateStore tabID true true,
         .addChatItem tabID .prompt p,
         .addChatItem tabID .answerStream "",
         .updateTabStatus tabID "busy",
         .resetTabTimer tabID]
      | none => [])
    ++ [.connectorOnFollowUpClicked tabID messageId followUp]

/-- Modelled from the spec: the `uiComponentsTexts.noMoreTabsTooltip`
constant lives in `../texts/constants`, which is not part of this
fragment; only its identity matters here. -/
def noMoreTabsTooltip : String := "noMoreTabsTooltip"

/-- Embedding of `FollowUpInteractionHandler.onWelcomeFollowUpClicked`.
`newTabId` is the response of the `mynahUI.updateStore('', tabData)`
tab-creation attempt (`none` when the tab limit is reached). -/
def onWelcomeFollowUpClicked (tabID : String) (welcomeFollowUpType : String)
    (newTabId : Option String) : List UiEffect :=
  if welcomeFollowUpType = "assign-code-task" then
    .requestNewTab ::
    (match newTabId with
      | some nid =>
        [.addTab { id := nid, status := "busy", type := "unknown",
                   isSelected := true, openInteractionType := "click" },
         .updateTabTypeFromUnknown tabID "cwc",
         .onUpdateTabType tabID,
         .updateTabTypeFromUnknown nid "wb",
         .onUpdateTabType nid,
         .onKnownTabOpen nid]
      | none =>
        [.notify noMoreTabsTooltip .warning])
  else if welcomeFollowUpType = "continue-to-chat" then
    [.addChatItem tabID .answer "Ok, please write your question below.",
     .updateTabTypeFromUnknown tabID "cwc",
     .onUpdateTabType tabID]
  else []

/-- Is this effect an `addChatItem` call? -/
def isAddChatItem : UiEffect → Bool
  | .addChatItem _ _ _ => true
  | _ => false

/-- Is this effect a mutation of the tab registry (`tabsStorage`)? -/
def isRegistryMutation : UiEffect → Bool
  | .addTab _ => true
  | .updateTabTypeFromUnknown _ _ => true
  | .updateTabStatus _ _ => true
  | .resetTabTimer _ => true
  | _ => false

/-- Is this effect a warning notification? -/
def isWarningNotify : UiEffect → Bool
  | .notify _ .warning => true
  | _ => false

/-- Number of "tab opened" notifications (`connector.onKnownTabOpen`)
sent for tab `id` in the trace. -/
def countKnownTabOpen (id : String) (t : List UiEffect) : Nat :=
  (t.filter fun e =>
    match e with
    | .onKnownTabOpen i => i = id
    | _ => false).length

/-- The tab registry, keyed by tab id. -/
def Registry := String → Option TabRecord

/-- Modelled from the spec: the tab-registry collaborator (`TabsStorage`,
not part of this fragment).  `addTab` registers a record under its id;
`updateTabTypeFromUnknown` retags a tab only when its current type is
"unknown"; `updateTabStatus` replaces the status of an existing tab;
`resetTabTimer` does not change the registry contents. -/
def applyEffect (reg : Registry) : UiEffect → Registry
  | .addTab t => fun i => if i = t.id then some t else reg i
  | .updateTabTypeFromUnknown id ty => fun i =>
      if i = id then
        match reg id with
        | some r => if r.type = "unknown" then some { r with type := ty } else some r
        | none => none
      else reg i
  | .updateTabStatus id st => fun i =>
      if i = id then
        match reg id with
        | some r => some { r with status := st }
        | none => none
      else reg i
  | _ => reg

/-- Apply a trace of effects to the registry, left to right. -/
def applyEffects (reg : Registry) (t : List UiEffect) : Registry :=
  t.foldl applyEffect reg

/-! ## String helpers for the wizard's URL handling -/

/-- Does `pat` occur at the start of `cs`? -/
def startsWithList : List Char → List Char → Bool
  | [], _ => true
  | _ :: _, [] => false
  | p :: ps, c :: cs => p = c && startsWithList ps cs

/-- Does `suf` occur at the end of `cs`? -/
def endsWithList (suf cs : List Char) : Bool :=
  startsWithList suf.reverse cs.reverse

/-- JavaScript `String.replace(pat, rep)` with a plain-string pattern:
replace the first occurrence of `pat` (scanning left to right), leave
the string unchanged when `pat` does not occur. -/
def replaceFirstList (pat rep : List Char) : List Char → List Char
  | [] => []
  | c :: cs =>
    if startsWithList pat (c :: cs) then rep ++ (c :: cs).drop pat.length
    else c :: replaceFirstList pat rep cs

/-- `jsReplaceFirst s pat rep` embeds `s.replace(pat, rep)`. -/
def jsReplaceFirst (s pat rep : String) : String :=
  ⟨replaceFirstList pat.data rep.data s.data⟩

/-- JavaScript `String.split(sep)` for a one-character separator:
always returns at least one (possibly empty) segment. -/
def splitOnChar (sep : Char) : List Char → List (List Char)
  | [] => [[]]
  | c :: cs =>
    if c = sep then [] :: splitOnChar sep cs
    else
      match splitOnChar sep cs with
      | [] => [[c]]
      | g :: gs => (c :: g) :: gs

/-- Drop everything up to and including the first ':' (the URI scheme). -/
def dropScheme : List Char → List Char
  | [] => []
  | c :: cs => if c = ':' then cs else dropScheme cs

/-- Modelled from the spec: the structured URI parsing done by the
external `vscode.Uri.parse` collaborator ("structured parsing" /
"extract the final path segment").  After `scheme:`, a `//` introduces
an authority running to the next '/'; the path is what follows, cut at
a query or fragment delimiter. -/
def uriPathChars (cs : List Char) : List Char :=
  (match dropScheme cs with
    | '/' :: '/' :: rest => rest.dropWhile (· ≠ '/')
    | rest => rest).takeWhile fun c => c ≠ '?' && c ≠ '#'

/-- The path component of a parsed URI, as a string. -/
def uriPath (s : String) : String := ⟨uriPathChars s.data⟩

/-- The regex `/^[\w]+@/` character class `\w`. -/
def isWordChar (c : Char) : Bool := c.isAlphanum || c = '_'

/-- After an initial run of word characters, is the next character '@'? -/
def hasAtAfterRun : List Char → Bool
  | [] => false
  | c :: cs => if isWordChar c then hasAtAfterRun cs else c = '@'

/-- The test `/^[\w]+@/.test(url)` from `cloneRepository`: at least one
word character followed by '@' at the start of the string. -/
def schemelessTest (s : String) : Bool :=
  match s.data with
  | [] => false
  | c :: cs => isWordChar c && hasAtAfterRun cs

/-- `withScheme` from `cloneRepository`: prepend `ssh://` to a
schemeless `user@host`-style URL. -/
def withScheme (url : String) : String :=
  if schemelessTest url then "ssh://" ++ url else url

/-- If the last path segment ends in `.git`, strip that suffix
(the regex `/\.git$/` replace from `cloneRepository`). -/
def dropGitSuffix (cs : List Char) : List Char :=
  if endsWithList ".git".data cs then cs.take (cs.length - 4) else cs

/-- The repository name `cloneRepository` derives from a URL: the final
'/'-separated segment of the parsed URI's path, with a trailing `.git`
stripped. -/
def deriveRepoName (url : String) : String :=
  ⟨dropGitSuffix ((splitOnChar '/' (uriPathChars (withScheme url).data)).getLastD [])⟩

/-! ## Wizard data model (CawsCreateWebview) -/

/-- An organization reference (`CawsOrg`): the field the wizard reads. -/
structure CawsOrg where
  name : String
  deriving DecidableEq, Repr

/-- A project reference (`CawsProject`): the fields the wizard reads. -/
structure CawsProject where
  name : String
  org : CawsOrg
  deriving DecidableEq, Repr

/-- A repository reference nested in a branch (`branch.repo`). -/
structure CawsRepo where
  name : String
  deriving DecidableEq, Repr

/-- A branch reference (`CawsBranch`): the fields the wizard reads. -/
structure CawsBranch where
  name : String
  repo : CawsRepo
  deriving DecidableEq, Repr

/-- Modelled from the spec: `WorkspaceSettings` (imported from
`../../commands`, not part of this fragment) — "a flat record of
user-chosen provisioning options (alias, instance type, inactivity
timeout, persistent-storage choice)".  The wizard spreads it unchanged
into each provisioning request; the field named `alias` in the source
is rendered `aliasName` here. -/
structure WorkspaceSettings where
  aliasName : String
  instanceType : String
  inactivityTimeoutMinutes : Nat
  persistentStorage : Nat
  deriving DecidableEq, Repr

/-- An IDE entry of the `ides` list in a provisioning request. -/
structure Ide where
  name : String
  deriving DecidableEq, Repr

/-- One entry of the `repositories` list in a provisioning request. -/
structure RepoInput where
  repositoryName : String
  branchName : String
  deriving DecidableEq, Repr

/-- The argument of `client.createDevelopmentWorkspace`: the `ides`
list, the project/organization names, the (possibly empty)
`repositories` list, and the spread-in settings. -/
structure CreateWorkspaceRequest where
  ides : List Ide
  projectName : String
  organizationName : String
  repositories : List RepoInput := []
  settings : WorkspaceSettings
  deriving DecidableEq, Repr

/-- The argument of `client.createProject`. -/
structure CreateProjectRequest where
  name : String
  organizationName : String
  displayName : String
  description : String
  deriving DecidableEq, Repr

/-- The identity of a provisioned workspace (`DevelopmentWorkspaceId`),
opaque to the wizard: it is only handed on to the clone and open steps. -/
structure DevelopmentWorkspaceId where
  id : String
  deriving DecidableEq, Repr

/-- The wizard's failure modes: `cancelled` embeds
`CancellationError('user')`, `typeError` the thrown `TypeError`, and
`api` a service error carrying its status code. -/
inductive WizardError where
  | cancelled (agent : String)
  | typeError (message : String)
  | api (statusCode : Nat)
  deriving DecidableEq, Repr

/-- One collaborator call made during a submission, in order. -/
inductive WizardCall where
  | selectResource (kind : String)
  | getProject (name organizationName : String)
  | createProject (req : CreateProjectRequest)
  | createDevWorkspace (req : CreateWorkspaceRequest)
  | cloneToWorkspace (ws : DevelopmentWorkspaceId) (repoName location : String)
  | openWorkspace (ws : DevelopmentWorkspaceId)
  deriving DecidableEq, Repr

/-- The collaborator responses a submission can consume:
the project/org picked in `selectCawsResource` (`none` = user
cancelled), the `client.getProject` outcome (`Except` over the error's
status code), and the projects/workspace the client returns from
`createProject` / `createDevelopmentWorkspace`. -/
structure WizardEnv where
  projectSel : Option CawsProject
  orgSel : Option CawsOrg
  getProjectResp : Except Nat CawsProject
  createdProject : CawsProject
  createdWorkspace : DevelopmentWorkspaceId
  deriving Repr

/-- The localized description passed to `createProject`. -/
def createProjectDescription : String := "Created by AWS Toolkit for Workspaces"

/-- Embedding of `CawsCreateWebview.getUnlinkedProject`: a 404 from
`getProject` is swallowed and triggers `createProject`; any other
error is rethrown; a found project is returned with no creation. -/
def getUnlinkedProject (getResp : Except Nat CawsProject) (created : CawsProject)
    (organizationName repoName : String) :
    Except WizardError CawsProject × List WizardCall :=
  match getResp with
  | .ok p => (.ok p, [.getProject repoName organizationName])
  | .error code =>
    if code = 404 then
      (.ok created,
       [.getProject repoName organizationName,
        .createProject { name := repoName, organizationName := organizationName,
                         displayName := repoName,
                         description := createProjectDescription }])
    else (.error (.api code), [.getProject repoName organizationName])

/-- Embedding of `CawsCreateWebview.createEmptyWorkpace` (source name
kept, typo included). -/
def createEmptyWorkpace (settings : WorkspaceSettings) (env : WizardEnv) :
    Except WizardError DevelopmentWorkspaceId × List WizardCall :=
  match env.projectSel with
  | none => (.error (.cancelled "user"), [.selectResource "project"])
  | some project =>
    (.ok env.createdWorkspace,
     [.selectResource "project",
      .createDevWorkspace
        { ides := [{ name := "VSCode" }], projectName := project.name,
          organizationName := project.org.name, settings := settings }])

/-- Embedding of `CawsCreateWebview.createLinkedWorkspace`. -/
def createLinkedWorkspace (settings : WorkspaceSettings)
    (selectedProject : CawsProject) (selectedBranch : CawsBranch)
    (env : WizardEnv) :
    Except WizardError DevelopmentWorkspaceId × List WizardCall :=
  (.ok env.createdWorkspace,
   [.createDevWorkspace
      { ides := [{ name := "VSCode" }], projectName := selectedProject.name,
        organizationName := selectedProject.org.name,
        repositories :=
          [{ repositoryName := selectedBranch.repo.name,
             branchName := jsReplaceFirst selectedBranch.name "refs/heads/" "" }],
        settings := settings }])

/-- Embedding of `CawsCreateWebview.cloneRepository`: parse the URL,
derive the repository name (empty name is a fatal `TypeError`), select
an organization (cancellable), resolve or create the project,
provision, then clone into the new workspace. -/
def cloneRepository (settings : WorkspaceSettings) (repositoryUrl : String)
    (env : WizardEnv) :
    Except WizardError DevelopmentWorkspaceId × List WizardCall :=
  let location := withScheme repositoryUrl
  let repoName := deriveRepoName repositoryUrl
  if repoName = "" then (.error (.typeError "No repository name found"), [])
  else
    match env.orgSel with
    | none => (.error (.cancelled "user"), [.selectResource "org"])
    | some org =>
      match getUnlinkedProject env.getProjectResp env.createdProject org.name repoName with
      | (.error e, calls) => (.error e, .selectResource "org" :: calls)
      | (.ok project, calls) =>
        (.ok env.createdWorkspace,
         .selectResource "org" ::
           calls ++
             [.createDevWorkspace
                { ides := [{ name := "VSCode" }], projectName := project.name,
                  organizationName := project.org.name, settings := settings },
              .cloneToWorkspace env.createdWorkspace repoName location])

/-- The three-variant source selection (`SourceResponse`). -/
inductive SourceResponse where
  | linked (selectedProject : CawsProject) (selectedBranch : CawsBranch)
  | clone (repositoryUrl : String)
  | empty
  deriving Repr

/-- Embedding of `CawsCreateWebview.submit`: dispatch on the source
variant, then hand the resulting workspace to `openDevelopmentWorkspace`. -/
def submit (settings : WorkspaceSettings) (source : SourceResponse)
    (env : WizardEnv) :
    Except WizardError DevelopmentWorkspaceId × List WizardCall :=
  let step :=
    match source with
    | .empty => createEmptyWorkpace settings env
    | .linked p b => createLinkedWorkspace settings p b env
    | .clone url => cloneRepository settings url env
  match step with
  | (.ok ws, t) => (.ok ws, t ++ [.openWorkspace ws])
  | (.error e, t) => (.error e, t)

/-- Is this call a provisioning request (`createDevelopmentWorkspace`)? -/
def isProvision : WizardCall → Bool
  | .createDevWorkspace _ => true
  | _ => false

/-- Is this call the clone step (`cloneToWorkspace`)? -/
def isCloneCall : WizardCall → Bool
  | .cloneToWorkspace _ _ _ => true
  | _ => false

/-- Is this call a user-selection prompt (`selectCawsResource`)? -/
def isSelect : WizardCall → Bool
  | .selectResource _ => true
  | _ => false

/-- The provisioning requests issued in a trace. -/
def provisionRequests (t : List WizardCall) : List CreateWorkspaceRequest :=
  t.filterMap fun c =>
    match c with
    | .createDevWorkspace req => some req
    | _ => none

/-- Number of provisioning calls in a trace. -/
def provisionCount (t : List WizardCall) : Nat := (t.filter isProvision).length

/-- Scanning a trace from the start, a provisioning call is reached
before any clone call (or no clone call occurs at all). -/
def cloneOnlyAfterProvision : List WizardCall → Bool
  | [] => true
  | c :: cs =>
    if isProvision c then true
    else if isCloneCall c then false
    else cloneOnlyAfterProvision cs

/-- No user-selection prompt occurs after a provisioning call. -/
def noSelectAfterProvision : List WizardCall → Bool
  | [] => true
  | c :: cs =>
    if isProvision c then cs.all fun d => !isSelect d
    else noSelectAfterProvision cs

/-! ## Panel singleton (`showCreateWorkspace`) -/

/-- The module-level mutable state behind `showCreateWorkspace`:
`activePanel` holds the current panel instance (by identity) and
`hasSubscriptions` whether the disposal subscription list is set. -/
structure PanelGlobals where
  activePanel : Option Nat
  hasSubscriptions : Bool
  deriving DecidableEq, Repr

/-- The panel operations `showCreateWorkspace` can perform: construct a
new `Panel` instance, or show (focus) an instance. -/
inductive PanelOp where
  | create (id : Nat)
  | focus (id : Nat)
  deriving DecidableEq, Repr

/-- Embedding of `showCreateWorkspace`: `activePanel ??= new Panel(...)`
constructs an instance only when none is active (`freshId` is the
identity a new instance would get); the active panel is then shown, and
the disposal subscription is installed when not already present.
Returns the new globals, the shown panel's identity, and the panel
operations performed. -/
def showCreateWorkspacePure (g : PanelGlobals) (freshId : Nat) :
    PanelGlobals × Nat × List PanelOp :=
  match g.activePanel with
  | some p => ({ activePanel := some p, hasSubscriptions := true }, p, [.focus p])
  | none =>
    ({ activePanel := some freshId, hasSubscriptions := true }, freshId,
     [.create freshId, .focus freshId])

/-- Embedding of the `onDidDispose` callback registered by
`showCreateWorkspace`: dispose the subscriptions and clear both the
singleton reference and the subscription list. -/
def disposePanel (_ : PanelGlobals) : PanelGlobals :=
  { activePanel := none, hasSubscriptions := false }

/-! ## Concrete values used by witness theorems -/

/-- A concrete organization for witnesses. -/
def wOrg : CawsOrg := { name := "org-1" }

/-- A concrete project for witnesses. -/
def wProj : CawsProject := { name := "proj-1", org := wOrg }

/-- Concrete settings for witnesses. -/
def wSettings : WorkspaceSettings :=
  { aliasName := "alias-1", instanceType := "dev.standard1.small",
    inactivityTimeoutMinutes := 15, persistentStorage := 16 }

/-- A concrete workspace identity for witnesses. -/
def wWorkspace : DevelopmentWorkspaceId := { id := "ws-1" }

/-- A concrete environment in which every selection is cancelled. -/
def wEnvCancelled : WizardEnv :=
  { projectSel := none, orgSel := none, getProjectResp := Except.error 404,
    createdProject := wProj, createdWorkspace := wWorkspace }

/-- A concrete environment in which every selection succeeds. -/
def wEnvFull : WizardEnv :=
  { projectSel := some wProj, orgSel := some wOrg, getProjectResp := Except.error 404,
    createdProject := wProj, createdWorkspace := wWorkspace }

/-- The provisioning request an empty-source submission issues in
`wEnvFull`. -/
def wReq : CreateWorkspaceRequest :=
  { ides := [{ name := "VSCode" }], projectName := "proj-1",
    organizationName := "org-1", settings := wSettings }

/-- A concrete registry holding one tab "t1" of type "unknown". -/
def witnessReg : Registry := fun i =>
  if i = "t1" then
    some { id := "t1", status := "idle", type := "unknown",
           isSelected := false, openInteractionType := "click" }
  else none

/-! ## Helper lemmas -/

/-- A list starts with itself followed by anything. -/
theorem startsWithList_append (pat rest : List Char) :
    startsWithList pat (pat ++ rest) = true := by
  induction pat with
  | nil => rfl
  | cons p ps ih => simp [startsWithList, ih]

/-- Replacing the first occurrence of a nonempty pattern, in a string
that begins with that pattern, removes exactly that leading occurrence. -/
theorem replaceFirstList_append_self (pat rest : List Char) (hp : pat ≠ []) :
    replaceFirstList pat [] (pat ++ rest) = rest := by
  match pat with
  | [] => exact absurd rfl hp
  | p :: ps =>
    rw [List.cons_append]
    show replaceFirstList (p :: ps) [] (p :: (ps ++ rest)) = rest
    rw [replaceFirstList]
    have hs : startsWithList (p :: ps) (p :: (ps ++ rest)) = true := by
      rw [← List.cons_append]; exact startsWithList_append _ _
    rw [hs]
    simp only [if_true, List.nil_append]
    rw [← List.cons_append, List.drop_left]

/-- `s.replace("refs/heads/", "")` on a branch name that begins with
`refs/heads/` yields the remainder. -/
theorem jsReplaceFirst_refsHeads (rest : String) :
    jsReplaceFirst ("refs/heads/" ++ rest) "refs/heads/" "" = rest := by
  show String.mk (replaceFirstList "refs/heads/".data "".data ("refs/heads/" ++ rest).data) = rest
  have hd : ("refs/heads/" ++ rest).data = "refs/heads/".data ++ rest.data := rfl
  rw [hd, show ("".data : List Char) = [] from rfl,
      replaceFirstList_append_self _ _ (by decide)]

/-! ## Claim theorems -/

/-- Claim C3: for a follow-up with unset kind and a present prompt,
dispatch performs exactly these calls in order — set the loading
state, append the prompt chat item, append the empty placeholder chat
item, mark the tab busy, reset its timer — and then forwards the
original `(tabId, messageId, action)` to the conversation backend; the
trace contains exactly two chat items; and with unset kind but no
prompt, dispatch still forwards to the backend (the forwarding happens
regardless of whether the prompt branch ran). -/
theorem claim_C3_prompt_dispatch (tabID messageId p : String) :
    onFollowUpClicked tabID messageId { type := none, prompt := some p } =
      [.updateStore tabID true true,
       .addChatItem tabID .prompt p,
       .addChatItem tabID .answerStream "",
       .updateTabStatus tabID "busy",
       .resetTabTimer tabID,
       .connectorOnFollowUpClicked tabID messageId { type := none, prompt := some p }]
    ∧ ((onFollowUpClicked tabID messageId { type := none, prompt := some p }).filter
        isAddChatItem).length = 2
    ∧ onFollowUpClicked tabID messageId { type := none, prompt := none } =
      [.connectorOnFollowUpClicked tabID messageId { type := none, prompt := none }] :=
  ⟨rfl, rfl, rfl⟩

/-- Claim C4: for a follow-up whose kind is "full-auth" or "re-auth",
dispatch performs exactly one call — forwarding `(tabId, kind)` to the
authentication collaborator — so no chat item is appended, no tab
status is mutated, and the action is not forwarded to the conversation
backend. -/
theorem claim_C4_auth_dispatch (tabID messageId : String) (prompt : Option String)
    (k : String) (h : k = "full-auth" ∨ k = "re-auth") :
    onFollowUpClicked tabID messageId { type := some k, prompt := prompt } =
      [.onAuthFollowUpClicked tabID k] := by
  rcases h with h | h <;> subst h <;> rfl

/-- Witness for claim C4 at kind "full-auth". -/
theorem claim_C4_auth_dispatch_witness :
    onFollowUpClicked "tab-1" "msg-1" { type := some "full-auth", prompt := some "p" } =
      [.onAuthFollowUpClicked "tab-1" "full-auth"] :=
  claim_C4_auth_dispatch "tab-1" "msg-1" (some "p") "full-auth" (Or.inl rfl)

/-- Claim C7: when the "assign-code-task" welcome follow-up gets a new
tab id, the resulting registry holds the new tab with type "wb", the
originating tab (previously of type "unknown") retagged to "cwc", and
the trace carries exactly one "tab opened" notification for the new
tab and none for the originating tab. -/
theorem claim_C7_assign_code_task_success (tabID newId : String) (reg : Registry)
    (r : TabRecord) (hne : tabID ≠ newId) (hreg : reg tabID = some r)
    (hty : r.type = "unknown") :
    ((applyEffects reg (onWelcomeFollowUpClicked tabID "assign-code-task" (some newId)))
        newId).map TabRecord.type = some "wb"
    ∧ ((applyEffects reg (onWelcomeFollowUpClicked tabID "assign-code-task" (some newId)))
        tabID).map TabRecord.type = some "cwc"
    ∧ countKnownTabOpen newId
        (onWelcomeFollowUpClicked tabID "assign-code-task" (some newId)) = 1
    ∧ countKnownTabOpen tabID
        (onWelcomeFollowUpClicked tabID "assign-code-task" (some newId)) = 0 := by
  have hne' : ¬(newId = tabID) := fun h => hne h.symm
  refine ⟨?_, ?_, ?_, ?_⟩ <;>
    simp [onWelcomeFollowUpClicked, applyEffects, applyEffect, countKnownTabOpen,
      hne, hne', hreg, hty]

/-- Witness for claim C7 with originating tab "t1" and new tab "t2". -/
theorem claim_C7_assign_code_task_success_witness :
    ((applyEffects witnessReg (onWelcomeFollowUpClicked "t1" "assign-code-task" (some "t2")))
        "t2").map TabRecord.type = some "wb"
    ∧ ((applyEffects witnessReg (onWelcomeFollowUpClicked "t1" "assign-code-task" (some "t2")))
        "t1").map TabRecord.type = some "cwc"
    ∧ countKnownTabOpen "t2"
        (onWelcomeFollowUpClicked "t1" "assign-code-task" (some "t2")) = 1
    ∧ countKnownTabOpen "t1"
        (onWelcomeFollowUpClicked "t1" "assign-code-task" (some "t2")) = 0 :=
  claim_C7_assign_code_task_success "t1" "t2" witnessReg
    { id := "t1", status := "idle", type := "unknown",
      isSelected := false, openInteractionType := "click" }
    (by decide) rfl rfl

/-- Claim C8: when the "assign-code-task" welcome follow-up fails to
obtain a new tab, the handler performs zero tab-registry mutations
(the registry is unchanged) and emits exactly one warning
notification; the trace ends there, so the failure is recovered
locally. -/
theorem claim_C8_assign_code_task_failure (tabID : String) (reg : Registry) :
    ((onWelcomeFollowUpClicked tabID "assign-code-task" none).filter
        isRegistryMutation).length = 0
    ∧ ((onWelcomeFollowUpClicked tabID "assign-code-task" none).filter
        isWarningNotify).length = 1
    ∧ applyEffects reg (onWelcomeFollowUpClicked tabID "assign-code-task" none) = reg :=
  ⟨rfl, rfl, rfl⟩

/-- Claim C1: a bare `user@host`-style repository URL is prepended with
the SSH scheme before parsing; the derived repository name is the final
path segment with a trailing `.git` stripped — concretely
"git@host.example:org/repo.git" yields "repo",
"https://host/org/weird-name" yields "weird-name", and
"https://host/" yields the empty name, on which `cloneRepository`
aborts at once with the fatal `TypeError` and performs no
collaborator call. -/
theorem claim_C1_url_parsing :
    (∀ url : String, schemelessTest url = true → withScheme url = "ssh://" ++ url)
    ∧ withScheme "git@host.example:org/repo.git" = "ssh://git@host.example:org/repo.git"
    ∧ deriveRepoName "git@host.example:org/repo.git" = "repo"
    ∧ deriveRepoName "https://host/org/weird-name" = "weird-name"
    ∧ deriveRepoName "https://host/" = ""
    ∧ (∀ (settings : WorkspaceSettings) (env : WizardEnv),
        cloneRepository settings "https://host/" env =
          (.error (.typeError "No repository name found"), [])) := by
  refine ⟨?_, by decide, by decide, by decide, by decide, ?_⟩
  · intro url h
    simp [withScheme, h]
  · intro settings env
    have h : deriveRepoName "https://host/" = "" := by decide
    simp [cloneRepository, h]

/-- Witness for claim C1's universally quantified conjunct at the
schemeless input "git@host.example:org/repo.git". -/
theorem claim_C1_url_parsing_witness :
    schemelessTest "git@host.example:org/repo.git" = true
    ∧ withScheme "git@host.example:org/repo.git" =
        "ssh://" ++ "git@host.example:org/repo.git" :=
  ⟨by decide, claim_C1_url_parsing.1 "git@host.example:org/repo.git" (by decide)⟩

/-- Claim C2: in `getUnlinkedProject`, a found project is returned with
no creation call; a 404 (NotFound) triggers exactly one `createProject`
whose `name` and `displayName` both equal the derived repository name;
and any lookup failure other than 404 propagates unchanged with no
creation call. -/
theorem claim_C2_resolve_or_create (org repoName : String) (created p : CawsProject) :
    getUnlinkedProject (.ok p) created org repoName =
      (.ok p, [.getProject repoName org])
    ∧ getUnlinkedProject (.error 404) created org repoName =
        (.ok created,
         [.getProject repoName org,
          .createProject { name := repoName, organizationName := org,
                           displayName := repoName,
                           description := createProjectDescription }])
    ∧ (∀ code : Nat, code ≠ 404 →
        getUnlinkedProject (.error code) created org repoName =
          (.error (.api code), [.getProject repoName org])) := by
  refine ⟨rfl, rfl, ?_⟩
  intro code h
  simp [getUnlinkedProject, h]

/-- Witness for claim C2 at a non-404 lookup failure (code 500). -/
theorem claim_C2_resolve_or_create_witness :
    (500 : Nat) ≠ 404
    ∧ getUnlinkedProject (.error 500) wProj "org-1" "repo-1" =
        (.error (.api 500), [.getProject "repo-1" "org-1"]) :=
  ⟨by decide, (claim_C2_resolve_or_create "org-1" "repo-1" wProj wProj).2.2 500 (by decide)⟩

/-- Claim C5: a linked-source submission issues exactly one
provisioning request, and a selected branch named
`refs/heads/<rest>` appears in it with branch name `<rest>` —
in particular "refs/heads/main" appears as "main". -/
theorem claim_C5_branch_normalization (settings : WorkspaceSettings)
    (project : CawsProject) (repoNm rest : String) (env : WizardEnv) :
    createLinkedWorkspace settings project
        { name := "refs/heads/" ++ rest, repo := { name := repoNm } } env =
      (.ok env.createdWorkspace,
       [.createDevWorkspace
          { ides := [{ name := "VSCode" }], projectName := project.name,
            organizationName := project.org.name,
            repositories := [{ repositoryName := repoNm, branchName := rest }],
            settings := settings }]) := by
  simp [createLinkedWorkspace, jsReplaceFirst_refsHeads]

/-- Claim C9: after any request the wizard panel singleton is set, and
a second request without an intervening disposal constructs no new
panel instance — it re-focuses and returns the same instance; a
disposal clears the singleton reference and the subscription list, and
a request after disposal constructs a fresh instance. -/
theorem claim_C9_panel_singleton (g : PanelGlobals) (id1 id2 id3 : Nat) :
    ((showCreateWorkspacePure (showCreateWorkspacePure g id1).1 id2).2.1 =
        (showCreateWorkspacePure g id1).2.1
      ∧ (showCreateWorkspacePure (showCreateWorkspacePure g id1).1 id2).2.2 =
          [.focus (showCreateWorkspacePure g id1).2.1])
    ∧ (disposePanel (showCreateWorkspacePure (showCreateWorkspacePure g id1).1 id2).1).activePanel
        = none
    ∧ (disposePanel (showCreateWorkspacePure (showCreateWorkspacePure g id1).1 id2).1).hasSubscriptions
        = false
    ∧ (showCreateWorkspacePure
        (disposePanel (showCreateWorkspacePure (showCreateWorkspacePure g id1).1 id2).1) id3).2.2
        = [.create id3, .focus id3]
    ∧ (showCreateWorkspacePure
        (disposePanel (showCreateWorkspacePure (showCreateWorkspacePure g id1).1 id2).1) id3).2.1
        = id3 := by
  rcases g with ⟨_ | p, subs⟩ <;>
    simp [showCreateWorkspacePure, disposePanel]

/-- Claim C6: in every submission, if the outcome is a user
cancellation then no provisioning call occurs in the trace; scanning
any submission trace from the start, a provisioning call is reached
before any clone call; and no user-selection prompt ever follows a
provisioning call. -/
theorem claim_C6_ordering (settings : WorkspaceSettings) (source : SourceResponse)
    (env : WizardEnv) :
    ((submit settings source env).1 = .error (.cancelled "user") →
      provisionCount (submit settings source env).2 = 0)
    ∧ cloneOnlyAfterProvision (submit settings source env).2 = true
    ∧ noSelectAfterProvision (submit settings source env).2 = true := by
  rcases source with ⟨p, b⟩ | url | _
  · refine ⟨?_, ?_, ?_⟩ <;>
      simp [submit, createLinkedWorkspace, provisionCount,
        cloneOnlyAfterProvision, noSelectAfterProvision, isProvision,
        isCloneCall, isSelect]
  · by_cases hn : deriveRepoName url = ""
    · refine ⟨?_, ?_, ?_⟩ <;>
        simp [submit, cloneRepository, hn, provisionCount,
          cloneOnlyAfterProvision, noSelectAfterProvision]
    · rcases horg : env.orgSel with _ | org
      · refine ⟨?_, ?_, ?_⟩ <;>
          simp [submit, cloneRepository, hn, horg, provisionCount,
            cloneOnlyAfterProvision, noSelectAfterProvision, isProvision,
            isCloneCall, isSelect]
      · rcases hgp : env.getProjectResp with code | proj
        · by_cases hc : code = 404
          · subst hc
            refine ⟨?_, ?_, ?_⟩ <;>
              simp [submit, cloneRepository, getUnlinkedProject, hn, horg, hgp,
                provisionCount, cloneOnlyAfterProvision, noSelectAfterProvision,
                isProvision, isCloneCall, isSelect]
          · refine ⟨?_, ?_, ?_⟩ <;>
              simp [submit, cloneRepository, getUnlinkedProject, hn, horg, hgp,
                hc, provisionCount, cloneOnlyAfterProvision,
                noSelectAfterProvision, isProvision, isCloneCall, isSelect]
        · refine ⟨?_, ?_, ?_⟩ <;>
            simp [submit, cloneRepository, getUnlinkedProject, hn, horg, hgp,
              provisionCount, cloneOnlyAfterProvision, noSelectAfterProvision,
              isProvision, isCloneCall, isSelect]
  · rcases hps : env.projectSel with _ | proj
    · refine ⟨?_, ?_, ?_⟩ <;>
        simp [submit, createEmptyWorkpace, hps, provisionCount,
          cloneOnlyAfterProvision, noSelectAfterProvision, isProvision,
          isCloneCall, isSelect]
    · refine ⟨?_, ?_, ?_⟩ <;>
        simp [submit, createEmptyWorkpace, hps, provisionCount,
          cloneOnlyAfterProvision, noSelectAfterProvision, isProvision,
          isCloneCall, isSelect]

/-- Witness for claim C6: a clone submission whose organization
selection is cancelled ends cancelled with zero provisioning calls. -/
theorem claim_C6_ordering_witness :
    (submit wSettings (.clone "https://host/org/repo.git") wEnvCancelled).1 =
      .error (.cancelled "user")
    ∧ provisionCount
        (submit wSettings (.clone "https://host/org/repo.git") wEnvCancelled).2 = 0 :=
  ⟨rfl,
   (claim_C6_ordering wSettings (.clone "https://host/org/repo.git") wEnvCancelled).1
     rfl⟩

/-- Claim C10: every provisioning request issued by a submission — in
each of the three source variants and under every environment —
carries the IDE list `[{ name := "VSCode" }]`. -/
theorem claim_C10_ides_invariant (settings : WorkspaceSettings)
    (source : SourceResponse) (env : WizardEnv) (req : CreateWorkspaceRequest)
    (h : req ∈ provisionRequests (submit settings source env).2) :
    req.ides = [{ name := "VSCode" }] := by
  rcases source with ⟨p, b⟩ | url | _
  · simp [submit, createLinkedWorkspace, provisionRequests] at h
    simp [h]
  · by_cases hn : deriveRepoName url = ""
    · simp [submit, cloneRepository, hn, provisionRequests] at h
    · rcases horg : env.orgSel with _ | org
      · simp [submit, cloneRepository, hn, horg, provisionRequests] at h
      · rcases hgp : env.getProjectResp with code | proj
        · by_cases hc : code = 404
          · subst hc
            simp [submit, cloneRepository, getUnlinkedProject, hn, horg, hgp,
              provisionRequests] at h
            simp [h]
          · simp [submit, cloneRepository, getUnlinkedProject, hn, horg, hgp,
              hc, provisionRequests] at h
        · simp [submit, cloneRepository, getUnlinkedProject, hn, horg, hgp,
            provisionRequests] at h
          simp [h]
  · rcases hps : env.projectSel with _ | proj
    · simp [submit, createEmptyWorkpace, hps, provisionRequests] at h
    · simp [submit, createEmptyWorkpace, hps, provisionRequests] at h
      simp [h]

/-- Witness for claim C10: the provisioning request of an empty-source
submission in `wEnvFull`. -/
theorem claim_C10_ides_invariant_witness :
    wReq ∈ provisionRequests (submit wSettings .empty wEnvFull).2
    ∧ wReq.ides = [{ name := "VSCode" }] :=
  ⟨by decide, claim_C10_ides_invariant wSettings .empty wEnvFull wReq (by decide)⟩

end AwsToolkit
